import Mathlib

/-!
Verification development for the TrueNAS iSCSI Cinder driver
(cinder/volume/drivers/rmb938/truenas/iscsi.py).

The driver methods are shallowly embedded as pure Lean functions.  Remote
backend behaviour (the TrueNASAPIClient) is abstracted as a `Backend`
record of response functions, matching the client contract: each call
either succeeds with a decoded object or fails with an HTTP error carrying
a status code and an optional JSON body (a missing body models a body that
raises JSONDecodeError when parsed).  Every embedded method returns both
its Python result (normal return or raised exception) and the ordered list
of remote calls it issued.
-/

namespace TrueNAS

/-- A JSON value, as produced by response.json(). -/
inductive Json where
  | null
  | str (s : String)
  | num (n : Int)
  | arr (xs : List Json)
  | obj (fs : List (String × Json))

/-- An HTTP error (requests.exceptions.HTTPError) carrying the response
status code and its body; body = none models a body whose .json() raises
json.JSONDecodeError. -/
structure HTTPErr where
  status : Nat
  body : Option Json

/-- Python exceptions the driver can raise. -/
inductive PyError where
  | httpError (e : HTTPErr)
  | keyError (k : String)
  | typeError
  | indexError
  | snapshotIsBusy (snapshot_name : String)
  | volumeDriverException (msg : String)

/-- Dataset kind (api/objects/dataset.py DatasetType). -/
inductive DatasetType where
  | FILESYSTEM
  | VOLUME
deriving DecidableEq

/-- A remote dataset (api/objects/dataset.py Dataset). -/
structure Dataset where
  id : String
  type : DatasetType
  size : Nat
  used : Nat
  origin : String

/-- iSCSI global configuration (api/objects/iscsi.py ISCSIGlobal). -/
structure ISCSIGlobal where
  id : Int
  basename : String

/-- One portal listen endpoint; the ip is kept as its string rendering
(Python formats the ip_address object into an f-string). -/
structure ISCSIPortalListen where
  ip : String
  port : Nat

/-- An iSCSI portal (api/objects/iscsi.py ISCSIPortal). -/
structure ISCSIPortal where
  id : Int
  listen : List ISCSIPortalListen

/-- An iSCSI target (api/objects/iscsi.py ISCSITarget). -/
structure ISCSITarget where
  id : Int

/-- An iSCSI extent (api/objects/iscsi.py ISCSIExtent). -/
structure ISCSIExtent where
  id : Int

/-- A metadata map (a Python dict); values can be Python None
(create_volume_from_snapshot stores snapshot.provider_id, which may be
None), modelled as `Option String`. -/
abbrev Meta : Type := List (String × Option String)

/-- A Cinder volume record, with the fields the driver reads. -/
structure Volume where
  id : String
  name_id : String
  size : Nat
  provider_id : Option String
  admin_metadata : Option Meta
  volume_type : Option String

/-- A Cinder snapshot record, with the fields the driver reads. -/
structure Snapshot where
  id : String
  name : String
  volume : Volume
  volume_size : Nat
  provider_id : Option String
  admin_metadata : Option Meta

/-- The dict a driver method returns for the framework to persist. -/
structure ModelUpdate where
  provider_id : Option String
  admin_metadata : Option Meta

/-- One remote call issued through the TrueNASAPIClient. -/
inductive RemoteCall where
  | createZvol (name : String) (size : Nat) (sparse : Bool)
  | expandZvol (dataset_id : String) (size : Nat)
  | deleteDataset (dataset_id : String)
  | createSnapshot (name : String) (dataset : String)
  | deleteSnapshot (snapshot_id : String)
  | cloneSnapshot (snapshot_id : Option String) (dataset_id : String)
  | getDataset (dataset_id : String)
  | getIscsiGlobal
  | getIscsiPortal (portal_id : String)
  | createIscsiTarget (name : String) (portal_id : Nat)
  | deleteIscsiTarget (target_id : Option String)
  | createIscsiDiskExtent (name : String) (block_size : Nat) (disk_path : String)
  | deleteIscsiExtent (extent_id : Option String)
  | createIscsiTargetextent (target_id : Int) (extent_id : Int)
deriving DecidableEq

/-- Behaviour of the remote TrueNAS API, one response function per client
call.  get_dataset is additionally indexed by the attempt number so that
eventual visibility of a freshly cloned dataset can be expressed. -/
structure Backend where
  createZvol : String → Nat → Bool → Except HTTPErr Unit
  expandZvol : String → Nat → Except HTTPErr Unit
  deleteDataset : String → Except HTTPErr Unit
  createSnapshot : String → String → Except HTTPErr Unit
  deleteSnapshot : String → Except HTTPErr Unit
  cloneSnapshot : Option String → String → Except HTTPErr Unit
  getDataset : String → Nat → Option Dataset
  getIscsiGlobal : Except HTTPErr ISCSIGlobal
  getIscsiPortal : String → Except HTTPErr (Option ISCSIPortal)
  createIscsiTarget : String → Nat → Except HTTPErr ISCSITarget
  deleteIscsiTarget : Option String → Except HTTPErr Unit
  createIscsiDiskExtent : String → Nat → String → Except HTTPErr ISCSIExtent
  deleteIscsiExtent : Option String → Except HTTPErr Unit
  createIscsiTargetextent : Int → Int → Except HTTPErr Unit

/-- Driver configuration and environment: the configured root dataset path
and the volume-type extra-spec lookup used for provisioning:type. -/
structure Config where
  truenas_dataset_path : String
  extraSpecs : String → Option String

/-- Whether pat is a prefix of s, on character lists. -/
def charsPrefix : List Char → List Char → Bool
  | [], _ => true
  | _ :: _, [] => false
  | p :: ps, c :: cs => p == c && charsPrefix ps cs

/-- Whether pat occurs as a contiguous run inside s, on character
lists. -/
def charsContains (pat : List Char) : List Char → Bool
  | [] => charsPrefix pat []
  | c :: rest => charsPrefix pat (c :: rest) || charsContains pat rest

/-- Substring containment, the semantics of Python needle in s for
strings. -/
def strContains (s pat : String) : Bool :=
  charsContains pat.data s.data

/-- Python truthiness of a metadata field: None and the empty dict are
falsy (the source guards with if not x.admin_metadata). -/
def metaFalsy : Option Meta → Bool
  | none => true
  | some m => m.isEmpty

/-- Python dict update as in a literal of the form open-brace **m, k: v
close-brace: an existing binding for k is overwritten in place, a new one
is appended. -/
def metaInsert (m : Meta) (k : String) (v : Option String) : Meta :=
  if m.any (fun p => p.1 == k) then
    m.map (fun p => if p.1 == k then (k, v) else p)
  else
    m ++ [(k, v)]

/-- Python needle in v for a string needle against an arbitrary JSON
value: substring test on a string, key membership on a dict, element
membership on a list (a string needle equals only string elements),
TypeError on null or a number. -/
def pyInJson (needle : String) : Json → Except PyError Bool
  | .str s => .ok (strContains s needle)
  | .obj fs => .ok (fs.any (fun p => p.1 == needle))
  | .arr xs => .ok (xs.any (fun x => match x with
      | .str s => s == needle
      | _ => false))
  | .null => .error .typeError
  | .num _ => .error .typeError

/-- Python subscript v[k] for a string key: dict lookup (KeyError when
absent), TypeError on every other value kind. -/
def pySubscript (v : Json) (k : String) : Except PyError Json :=
  match v with
  | .obj fs => match fs.lookup k with
      | some x => .ok x
      | none => .error (.keyError k)
  | _ => .error .typeError

/-- Positional list indexing, Option-valued. -/
def listIndex {α : Type} : List α → Nat → Option α
  | [], _ => none
  | x :: _, 0 => some x
  | _ :: rest, n + 1 => listIndex rest n

/-- Python subscript v[i] for an integer index: list indexing (IndexError
when out of range), KeyError on a dict, TypeError otherwise. -/
def pyIndex (v : Json) (i : Nat) : Except PyError Json :=
  match v with
  | .arr xs => match listIndex xs i with
      | some x => .ok x
      | none => .error .indexError
  | .obj _ => .error (.keyError (toString i))
  | _ => .error .typeError

/-- The except-HTTPError handler shared verbatim (textually identical in
the source) by delete_volume, __remove_iscsi_target and
__remove_iscsi_extent: on status 422 it parses the body, and when the
parsed body holds a top-level null key whose first entry carries a message
containing does not exist, the error is absorbed (remote resource already
gone); a JSONDecodeError re-raises the original error; any lookup failure
on an unexpectedly shaped body propagates as its own Python exception;
everything else re-raises the original error. -/
def handle_null_does_not_exist (e : HTTPErr) : Except PyError Unit :=
  if e.status == 422 then
    match e.body with
    | none => .error (.httpError e)
    | some response_data =>
        match pyInJson "null" response_data with
        | .error err => .error err
        | .ok false => .error (.httpError e)
        | .ok true =>
            match pySubscript response_data "null" with
            | .error err => .error err
            | .ok v =>
                match pyIndex v 0 with
                | .error err => .error err
                | .ok v0 =>
                    match pySubscript v0 "message" with
                    | .error err => .error err
                    | .ok msg =>
                        match pyInJson "does not exist" msg with
                        | .error err => .error err
                        | .ok true => .ok ()
                        | .ok false => .error (.httpError e)
  else .error (.httpError e)

/-- The except-HTTPError handler of delete_snapshot: on status 422 the
body message is inspected; a not found message absorbs the error, a
snapshot has dependent clones message raises SnapshotIsBusy with the
snapshot name; a JSONDecodeError re-raises the original error; a lookup
failure on an unexpectedly shaped body propagates as its own Python
exception; everything else re-raises the original error. -/
def handle_snapshot_delete_error (snapshot_name : String) (e : HTTPErr) :
    Except PyError Unit :=
  if e.status == 422 then
    match e.body with
    | none => .error (.httpError e)
    | some j =>
        match pySubscript j "message" with
        | .error err => .error err
        | .ok msg =>
            match pyInJson "not found" msg with
            | .error err => .error err
            | .ok true => .ok ()
            | .ok false =>
                match pyInJson "snapshot has dependent clones" msg with
                | .error err => .error err
                | .ok true => .error (.snapshotIsBusy snapshot_name)
                | .ok false => .error (.httpError e)
  else .error (.httpError e)

/-- TrueNASISCSIDriver.create_snapshot. -/
def create_snapshot (b : Backend) (snapshot : Snapshot) :
    Except PyError ModelUpdate × List RemoteCall :=
  match snapshot.volume.provider_id with
  | none =>
      (.error (.volumeDriverException ("Volume " ++ snapshot.volume.id ++
        " does not exist in the backend so we cannot create a snapshot")), [])
  | some vpid =>
      let truenas_snapshot_id := vpid ++ "@" ++ snapshot.id
      let calls := [RemoteCall.createSnapshot snapshot.id vpid]
      match b.createSnapshot snapshot.id vpid with
      | .error e => (.error (.httpError e), calls)
      | .ok _ =>
          let md : Meta :=
            if metaFalsy snapshot.admin_metadata then
              [("truenas_snapshot_id", some truenas_snapshot_id)]
            else
              metaInsert (snapshot.admin_metadata.getD [])
                "truenas_snapshot_id" (some truenas_snapshot_id)
          (.ok { provider_id := some truenas_snapshot_id,
                 admin_metadata := some md }, calls)

/-- TrueNASISCSIDriver.create_volume: derives the remote path, selects the
provisioning mode from the provisioning:type extra-spec of the volume
type (a falsy lookup result, i.e. a missing spec or an empty value, keeps
the thick default; an unknown non-empty value raises before any remote
call), then issues the zvol create with the GiB size converted to bytes. -/
def create_volume (cfg : Config) (b : Backend) (volume : Volume) :
    Except PyError ModelUpdate × List RemoteCall :=
  let truenas_volume_id := cfg.truenas_dataset_path ++ "/" ++ volume.name_id
  let sparseResult : Except PyError Bool :=
    match volume.volume_type with
    | none => .ok false
    | some vt =>
        match cfg.extraSpecs vt with
        | none => .ok false
        | some provisioning_type =>
            if provisioning_type == "" then .ok false
            else if provisioning_type == "thin" then .ok true
            else if provisioning_type == "thick" then .ok false
            else .error (.volumeDriverException ("Unknown provisioning type "
              ++ provisioning_type ++ " for volume " ++ volume.id))
  match sparseResult with
  | .error err => (.error err, [])
  | .ok sparse =>
      let size := volume.size * 1024 * 1024 * 1024
      let calls := [RemoteCall.createZvol truenas_volume_id size sparse]
      match b.createZvol truenas_volume_id size sparse with
      | .error e => (.error (.httpError e), calls)
      | .ok _ =>
          let md : Meta :=
            if metaFalsy volume.admin_metadata then
              [("truenas_volume_id", some truenas_volume_id)]
            else
              metaInsert (volume.admin_metadata.getD [])
                "truenas_volume_id" (some truenas_volume_id)
          (.ok { provider_id := some truenas_volume_id,
                 admin_metadata := some md }, calls)

/-- TrueNASISCSIDriver.extend_volume. -/
def extend_volume (b : Backend) (volume : Volume) (new_size : Nat) :
    Except PyError Unit × List RemoteCall :=
  match volume.provider_id with
  | none =>
      (.error (.volumeDriverException ("volume " ++ volume.id ++
        " does not exist in TrueNAS so we cant expand it")), [])
  | some pid =>
      let size := new_size * 1024 * 1024 * 1024
      let calls := [RemoteCall.expandZvol pid size]
      match b.expandZvol pid size with
      | .ok _ => (.ok (), calls)
      | .error e => (.error (.httpError e), calls)

/-- The busy-poll of create_volume_from_snapshot, the source loop
while dataset is None: dataset = get_dataset(id).  behav gives the
backend answer at each attempt; the result is the attempt index at which
the dataset first became visible, or none when it never does within
fuel iterations (the source imposes no bound at all). -/
def poll_dataset (behav : Nat → Option Dataset) : Nat → Nat → Option Nat
  | 0, _ => none
  | fuel + 1, k =>
      match behav k with
      | some _ => some k
      | none => poll_dataset behav fuel (k + 1)

/-- The model_update dict built by create_volume_from_snapshot: the new
provider id, plus metadata recording the new volume id and the source
snapshot id (merged over the existing metadata when it is truthy). -/
def cloneModelUpdate (cfg : Config) (volume : Volume) (snapshot : Snapshot) :
    ModelUpdate :=
  let truenas_volume_id := cfg.truenas_dataset_path ++ "/" ++ volume.name_id
  let md : Meta :=
    if metaFalsy volume.admin_metadata then
      [("truenas_volume_id", some truenas_volume_id),
       ("truenas_volume_from_snapshot_id", snapshot.provider_id)]
    else
      metaInsert (metaInsert (volume.admin_metadata.getD [])
          "truenas_volume_id" (some truenas_volume_id))
        "truenas_volume_from_snapshot_id" snapshot.provider_id
  { provider_id := some truenas_volume_id, admin_metadata := some md }

/-- TrueNASISCSIDriver.create_volume_from_snapshot: clones the snapshot to
the derived path, sets the provider id on the volume record, and only when
the snapshot size differs from the requested size busy-polls get_dataset
until the clone is visible and then calls extend_volume.  The result is
none when the unbounded visibility loop does not finish within fuel
iterations, modelling its potential non-termination. -/
def create_volume_from_snapshot (cfg : Config) (b : Backend)
    (volume : Volume) (snapshot : Snapshot) (fuel : Nat) :
    Option (Except PyError ModelUpdate × List RemoteCall) :=
  let truenas_volume_id := cfg.truenas_dataset_path ++ "/" ++ volume.name_id
  let cloneCall := RemoteCall.cloneSnapshot snapshot.provider_id truenas_volume_id
  match b.cloneSnapshot snapshot.provider_id truenas_volume_id with
  | .error e => some (.error (.httpError e), [cloneCall])
  | .ok _ =>
      let volume2 := { volume with provider_id := some truenas_volume_id }
      let model_update := cloneModelUpdate cfg volume snapshot
      if snapshot.volume_size != volume.size then
        match poll_dataset (b.getDataset truenas_volume_id) fuel 0 with
        | none => none
        | some n =>
            let ext := extend_volume b volume2 volume.size
            let calls := cloneCall ::
              (List.replicate (n + 1) (RemoteCall.getDataset truenas_volume_id)
                ++ ext.2)
            match ext.1 with
            | .ok _ => some (.ok model_update, calls)
            | .error err => some (.error err, calls)
      else
        some (.ok model_update, [cloneCall])

/-- TrueNASISCSIDriver.delete_snapshot. -/
def delete_snapshot (b : Backend) (snapshot : Snapshot) :
    Except PyError Unit × List RemoteCall :=
  match snapshot.provider_id with
  | none => (.ok (), [])
  | some pid =>
      let calls := [RemoteCall.deleteSnapshot pid]
      match b.deleteSnapshot pid with
      | .ok _ => (.ok (), calls)
      | .error e => (handle_snapshot_delete_error snapshot.name e, calls)

/-- TrueNASISCSIDriver.delete_volume. -/
def delete_volume (b : Backend) (volume : Volume) :
    Except PyError Unit × List RemoteCall :=
  match volume.provider_id with
  | none => (.ok (), [])
  | some pid =>
      let calls := [RemoteCall.deleteDataset pid]
      match b.deleteDataset pid with
      | .ok _ => (.ok (), calls)
      | .error e => (handle_null_does_not_exist e, calls)

/-- TrueNASISCSIDriver.__remove_iscsi_target (the Python name is
class-private). -/
def remove_iscsi_target (b : Backend) (target_id : Option String) :
    Except PyError Unit :=
  match b.deleteIscsiTarget target_id with
  | .ok _ => .ok ()
  | .error e => handle_null_does_not_exist e

/-- TrueNASISCSIDriver.__remove_iscsi_extent (the Python name is
class-private). -/
def remove_iscsi_extent (b : Backend) (extent_id : Option String) :
    Except PyError Unit :=
  match b.deleteIscsiExtent extent_id with
  | .ok _ => .ok ()
  | .error e => handle_null_does_not_exist e

/-- TrueNASISCSIDriver.remove_export: precondition checks (provider id,
metadata present, both id keys present), then the target delete followed
by the extent delete; an exception raised by the target delete propagates
immediately, so the extent delete only runs when the target delete
returned normally. -/
def remove_export (b : Backend) (volume : Volume) :
    Except PyError Unit × List RemoteCall :=
  match volume.provider_id with
  | none =>
      (.error (.volumeDriverException ("Volume " ++ volume.id ++
        " does not have provider_id set so we cannot remove export")), [])
  | some _ =>
      if metaFalsy volume.admin_metadata then
        (.error (.volumeDriverException ("Volume " ++ volume.id ++
          " is missing admin_metadata so we do not know how to remove exports")), [])
      else
        let m := volume.admin_metadata.getD []
        match m.lookup "truenas_iscsi_target_id" with
        | none =>
            (.error (.volumeDriverException ("Volume " ++ volume.id ++
              " is missing truenas_iscsi_target_id in admin_metadata so we do "
              ++ "not know how to remove exports")), [])
        | some truenas_iscsi_target_id =>
            match m.lookup "truenas_iscsi_extent_id" with
            | none =>
                (.error (.volumeDriverException ("Volume " ++ volume.id ++
                  " is missing truenas_iscsi_extent_id in admin_metadata so we "
                  ++ "do not know how to remove exports")), [])
            | some truenas_iscsi_extent_id =>
                match remove_iscsi_target b truenas_iscsi_target_id with
                | .error err =>
                    (.error err, [RemoteCall.deleteIscsiTarget truenas_iscsi_target_id])
                | .ok _ =>
                    (remove_iscsi_extent b truenas_iscsi_extent_id,
                     [RemoteCall.deleteIscsiTarget truenas_iscsi_target_id,
                      RemoteCall.deleteIscsiExtent truenas_iscsi_extent_id])

/-- TrueNASISCSIDriver.create_export: after the provider-id check, the
three remote creates run in order (target, disk extent, target-extent
association); only then is the metadata update built, by unpacking
volume.admin_metadata, which raises TypeError when that field is None. -/
def create_export (b : Backend) (volume : Volume) :
    Except PyError ModelUpdate × List RemoteCall :=
  match volume.provider_id with
  | none =>
      (.error (.volumeDriverException ("Volume " ++ volume.id ++
        " does not have provider_id set so we cannot create export")), [])
  | some pid =>
      let c1 := RemoteCall.createIscsiTarget volume.name_id 1
      match b.createIscsiTarget volume.name_id 1 with
      | .error e => (.error (.httpError e), [c1])
      | .ok iscsi_target =>
          let c2 := RemoteCall.createIscsiDiskExtent volume.name_id 512 pid
          match b.createIscsiDiskExtent volume.name_id 512 pid with
          | .error e => (.error (.httpError e), [c1, c2])
          | .ok iscsi_disk_extent =>
              let c3 := RemoteCall.createIscsiTargetextent iscsi_target.id
                iscsi_disk_extent.id
              match b.createIscsiTargetextent iscsi_target.id iscsi_disk_extent.id with
              | .error e => (.error (.httpError e), [c1, c2, c3])
              | .ok _ =>
                  match volume.admin_metadata with
                  | none => (.error .typeError, [c1, c2, c3])
                  | some m =>
                      (.ok { provider_id := none,
                             admin_metadata := some (metaInsert
                               (metaInsert m "truenas_iscsi_target_id"
                                 (some (toString iscsi_target.id)))
                               "truenas_iscsi_extent_id"
                               (some (toString iscsi_disk_extent.id))) },
                       [c1, c2, c3])

/-- The connection dict returned by initialize_connection (the data
sub-dict plus the driver_volume_type). -/
structure ConnectionInfo where
  driver_volume_type : String
  target_discovered : Bool
  target_iqn : String
  target_portal : String
  volume_id : String
  discard : Bool

/-- TrueNASISCSIDriver.initialize_connection: requires a provider id,
reads the iSCSI global and portal 1, and composes the descriptor from the
global basename, the volume name-id and the first listen endpoint of the
portal (listen[0] raises IndexError when the listen list is empty). -/
def initialize_connection (b : Backend) (volume : Volume) :
    Except PyError ConnectionInfo × List RemoteCall :=
  match volume.provider_id with
  | none =>
      (.error (.volumeDriverException ("Volume " ++ volume.id ++
        " does not have provider_id set so we cannot make a connection")), [])
  | some _ =>
      match b.getIscsiGlobal with
      | .error e => (.error (.httpError e), [RemoteCall.getIscsiGlobal])
      | .ok iscsi_global =>
          let calls := [RemoteCall.getIscsiGlobal, RemoteCall.getIscsiPortal "1"]
          match b.getIscsiPortal "1" with
          | .error e => (.error (.httpError e), calls)
          | .ok none =>
              (.error (.volumeDriverException "Could not find iscsi portal"), calls)
          | .ok (some iscsi_portal) =>
              match iscsi_portal.listen with
              | [] => (.error .indexError, calls)
              | l0 :: _ =>
                  (.ok { driver_volume_type := "iscsi",
                         target_discovered := false,
                         target_iqn := iscsi_global.basename ++ ":" ++ volume.name_id,
                         target_portal := l0.ip ++ ":" ++ toString l0.port,
                         volume_id := volume.id,
                         discard := false }, calls)

/-- Result-kind test for the Python outcome of a driver method. -/
def isOk {α : Type} : Except PyError α → Bool
  | .ok _ => true
  | .error _ => false

/-! Concrete fixtures used by the witnesses and counterexamples. -/

/-- A remote dataset as get_dataset would decode it. -/
def exDataset : Dataset :=
  { id := "pool/ds/vol2", type := .VOLUME, size := 1073741824, used := 0,
    origin := "" }

/-- A backend on which every call succeeds; the global and portal carry
the values of the connection-descriptor example of the spec. -/
def okBackend : Backend :=
  { createZvol := fun _ _ _ => .ok ()
    expandZvol := fun _ _ => .ok ()
    deleteDataset := fun _ => .ok ()
    createSnapshot := fun _ _ => .ok ()
    deleteSnapshot := fun _ => .ok ()
    cloneSnapshot := fun _ _ => .ok ()
    getDataset := fun _ _ => some exDataset
    getIscsiGlobal := .ok { id := 1, basename := "iqn.2005-10.org.example.ctl" }
    getIscsiPortal := fun _ =>
      .ok (some { id := 1, listen := [{ ip := "10.0.0.5", port := 3260 }] })
    createIscsiTarget := fun _ _ => .ok { id := 7 }
    deleteIscsiTarget := fun _ => .ok ()
    createIscsiDiskExtent := fun _ _ _ => .ok { id := 9 }
    deleteIscsiExtent := fun _ => .ok ()
    createIscsiTargetextent := fun _ _ => .ok () }

/-- Configuration with no provisioning extra-spec set anywhere. -/
def exConfig : Config :=
  { truenas_dataset_path := "pool/ds", extraSpecs := fun _ => none }

/-- Configuration whose provisioning extra-spec is thin for every type. -/
def cfgThin : Config :=
  { truenas_dataset_path := "pool/ds", extraSpecs := fun _ => some "thin" }

/-- Configuration whose provisioning extra-spec is the empty string. -/
def cfgEmptySpec : Config :=
  { truenas_dataset_path := "pool/ds", extraSpecs := fun _ => some "" }

/-- An exported volume: provider id set and both iSCSI ids persisted. -/
def exVolExport : Volume :=
  { id := "v1", name_id := "vol1", size := 1,
    provider_id := some "pool/ds/vol1",
    admin_metadata := some [("truenas_iscsi_target_id", some "7"),
                            ("truenas_iscsi_extent_id", some "9")],
    volume_type := none }

/-- A volume whose provider id is set but whose admin metadata is None. -/
def exVolNoMeta : Volume :=
  { id := "v1", name_id := "vol1", size := 1,
    provider_id := some "pool/ds/vol1", admin_metadata := none,
    volume_type := none }

/-- A volume that was never created remotely. -/
def exVolNoProvider : Volume :=
  { id := "v0", name_id := "vol0", size := 1, provider_id := none,
    admin_metadata := none, volume_type := none }

/-- A snapshot that was never created remotely. -/
def exSnapNoProvider : Snapshot :=
  { id := "s0", name := "snap0", volume := exVolNoProvider, volume_size := 1,
    provider_id := none, admin_metadata := none }

/-- The volume of the spec connection-descriptor example (identity abc). -/
def exVolAbc : Volume :=
  { id := "vid-abc", name_id := "abc", size := 1,
    provider_id := some "pool/ds/abc", admin_metadata := some [],
    volume_type := none }

/-- A snapshot with a provider id, parented on the exported volume. -/
def exSnapWithProvider : Snapshot :=
  { id := "s1", name := "snap1", volume := exVolExport, volume_size := 1,
    provider_id := some "pool/ds/vol1@s1", admin_metadata := none }

/-- A 2 GiB volume to be cloned from a 1 GiB snapshot (sizes differ). -/
def exVolClone : Volume :=
  { id := "v2", name_id := "vol2", size := 2, provider_id := none,
    admin_metadata := none, volume_type := none }

/-- A 1 GiB volume to be cloned from a 1 GiB snapshot (sizes equal). -/
def exVolCloneEq : Volume :=
  { id := "v2", name_id := "vol2", size := 1, provider_id := none,
    admin_metadata := none, volume_type := none }

/-- A snapshot with provider metadata, used by the create-volume theorems
that guard against absent metadata. -/
def exSnapNoMeta : Snapshot :=
  { id := "s3", name := "snap3", volume := exVolNoMeta, volume_size := 1,
    provider_id := some "pool/ds/vol1@s3", admin_metadata := none }

/-- A volume carrying a volume type, for provisioning-selection tests. -/
def exVolTyped : Volume :=
  { id := "v7", name_id := "vol7", size := 1, provider_id := none,
    admin_metadata := none, volume_type := some "t1" }

/-- An HTTP 500 error with an unparseable body: classified Fatal
everywhere. -/
def e500 : HTTPErr := { status := 500, body := none }

/-- A 422 error whose body matches the does-not-exist pattern of the
shared handler. -/
def e422NotFoundBody : HTTPErr :=
  { status := 422,
    body := some (.obj [("null",
      .arr [.obj [("message", .str "this does not exist")]])]) }

/-- A 422 error whose body is valid JSON but has no message key. -/
def e422NoMessage : HTTPErr :=
  { status := 422, body := some (.obj [("foo", .str "bar")]) }

/-- A 422 error with a well-shaped message that matches no pattern. -/
def e422Shaped : HTTPErr :=
  { status := 422, body := some (.obj [("message", .str "boom")]) }

/-- A 422 error whose message contains both the not-found and the
dependent-clones texts. -/
def e422BothMsgs : HTTPErr :=
  { status := 422,
    body := some (.obj [("message",
      .str "not found; snapshot has dependent clones")]) }

/-- A 422 error whose message is exactly the dependent-clones text. -/
def e422Clones : HTTPErr :=
  { status := 422,
    body := some (.obj [("message", .str "snapshot has dependent clones")]) }

/-- A backend whose target delete fails fatally (HTTP 500). -/
def bTargetFatal : Backend :=
  { okBackend with deleteIscsiTarget := fun _ => .error e500 }

/-- A backend whose target delete fails with the not-found 422 body. -/
def bTargetNotFound : Backend :=
  { okBackend with deleteIscsiTarget := fun _ => .error e422NotFoundBody }

/-- A backend whose disk-extent create fails fatally (HTTP 500). -/
def bExtentFail : Backend :=
  { okBackend with createIscsiDiskExtent := fun _ _ _ => .error e500 }

/-- A backend on which a freshly cloned dataset never becomes visible. -/
def bNeverVisible : Backend :=
  { okBackend with getDataset := fun _ _ => none }

/-- A backend on which every teardown delete fails with the well-shaped
pattern-free 422 error. -/
def bShapedFail : Backend :=
  { okBackend with
    deleteDataset := fun _ => .error e422Shaped
    deleteSnapshot := fun _ => .error e422Shaped
    deleteIscsiTarget := fun _ => .error e422Shaped
    deleteIscsiExtent := fun _ => .error e422Shaped }

/-- A backend whose snapshot delete fails with a valid JSON body that has
no message key. -/
def bSnapDeleteNoMsg : Backend :=
  { okBackend with deleteSnapshot := fun _ => .error e422NoMessage }

/-- A backend whose snapshot delete fails with a message containing both
the not-found and the dependent-clones texts. -/
def bSnapDeleteBoth : Backend :=
  { okBackend with deleteSnapshot := fun _ => .error e422BothMsgs }

/-- A backend whose snapshot delete fails with the dependent-clones
message. -/
def bSnapBusy : Backend :=
  { okBackend with deleteSnapshot := fun _ => .error e422Clones }

/-! Claim theorems. -/

/-- Claim C1, counterexample: on a volume passing every remove_export
precondition, a target delete failing with a Fatal classification (HTTP
500) propagates immediately: the returned outcome is the original HTTP
error and the issued-call list holds only the target delete, so the
extent delete was never attempted.  This falsifies the claim that a
failure of any classification of the target delete leaves the extent
delete attempted. -/
theorem C1_counterexample :
    (remove_export bTargetFatal exVolExport).1 = .error (.httpError e500) ∧
    (remove_export bTargetFatal exVolExport).2 =
      [RemoteCall.deleteIscsiTarget (some "7")] ∧
    RemoteCall.deleteIscsiExtent (some "9") ∉
      (remove_export bTargetFatal exVolExport).2 := by
  refine ⟨rfl, rfl, ?_⟩
  decide

/-- Claim C1 as amended: for a volume passing every remove_export
precondition, a target delete that returns normally (success, or a
422 failure absorbed by the not-found handler) is followed by the
extent delete; a target delete that raises (a Fatal classification, or
a substituted lookup error) propagates at once and the extent delete is
not attempted. -/
theorem C1_amended (b : Backend) (volume : Volume) (pid : String) (m : Meta)
    (tid eid : Option String)
    (hp : volume.provider_id = some pid)
    (hm : volume.admin_metadata = some m)
    (hti : m.lookup "truenas_iscsi_target_id" = some tid)
    (hei : m.lookup "truenas_iscsi_extent_id" = some eid) :
    (remove_iscsi_target b tid = .ok () →
      remove_export b volume =
        (remove_iscsi_extent b eid,
         [RemoteCall.deleteIscsiTarget tid, RemoteCall.deleteIscsiExtent eid])) ∧
    (∀ err, remove_iscsi_target b tid = .error err →
      remove_export b volume =
        (.error err, [RemoteCall.deleteIscsiTarget tid])) := by
  have hne : m.isEmpty = false := by
    cases m with
    | nil => simp at hti
    | cons a l => rfl
  constructor
  · intro hok
    simp [remove_export, hp, hm, metaFalsy, hne, hti, hei, hok]
  · intro err herr
    simp [remove_export, hp, hm, metaFalsy, hne, hti, hei, herr]

/-- Witness for C1: a 422 not-found failure of the target delete is
absorbed and the extent delete is attempted. -/
theorem C1_witness :
    remove_export bTargetNotFound exVolExport =
      (remove_iscsi_extent bTargetNotFound (some "9"),
       [RemoteCall.deleteIscsiTarget (some "7"),
        RemoteCall.deleteIscsiExtent (some "9")]) :=
  (C1_amended bTargetNotFound exVolExport "pool/ds/vol1"
    [("truenas_iscsi_target_id", some "7"), ("truenas_iscsi_extent_id", some "9")]
    (some "7") (some "9") rfl rfl rfl rfl).1 rfl

/-- Claim C2, counterexample: with the target create succeeding (remote
id 7) and the disk-extent create failing, create_export raises the HTTP
error after having issued both calls, and returns no metadata update at
all: the identifier of the already-created target is not persisted
anywhere before (or after) step 2 runs.  This falsifies the claim that
each step's remote id is persisted before the next step runs. -/
theorem C2_counterexample :
    create_export bExtentFail exVolExport =
      (.error (.httpError e500),
       [RemoteCall.createIscsiTarget "vol1" 1,
        RemoteCall.createIscsiDiskExtent "vol1" 512 "pool/ds/vol1"]) := by
  rfl

/-- Claim C2 as amended: create_export persists the remote identifiers
only through the update it returns after all three steps succeed; a
failure at any step propagates the HTTP error and no identifier is
persisted at all (in particular, the id of an already-created target is
lost when step 2 or step 3 fails). -/
theorem C2_amended (b : Backend) (volume : Volume) (pid : String) (m : Meta)
    (hp : volume.provider_id = some pid)
    (hm : volume.admin_metadata = some m) :
    (∀ t ext, b.createIscsiTarget volume.name_id 1 = .ok t →
      b.createIscsiDiskExtent volume.name_id 512 pid = .ok ext →
      b.createIscsiTargetextent t.id ext.id = .ok () →
      create_export b volume =
        (.ok { provider_id := none,
               admin_metadata := some (metaInsert
                 (metaInsert m "truenas_iscsi_target_id" (some (toString t.id)))
                 "truenas_iscsi_extent_id" (some (toString ext.id))) },
         [RemoteCall.createIscsiTarget volume.name_id 1,
          RemoteCall.createIscsiDiskExtent volume.name_id 512 pid,
          RemoteCall.createIscsiTargetextent t.id ext.id])) ∧
    (∀ e1, b.createIscsiTarget volume.name_id 1 = .error e1 →
      create_export b volume = (.error (.httpError e1),
        [RemoteCall.createIscsiTarget volume.name_id 1])) ∧
    (∀ t e2, b.createIscsiTarget volume.name_id 1 = .ok t →
      b.createIscsiDiskExtent volume.name_id 512 pid = .error e2 →
      create_export b volume = (.error (.httpError e2),
        [RemoteCall.createIscsiTarget volume.name_id 1,
         RemoteCall.createIscsiDiskExtent volume.name_id 512 pid])) ∧
    (∀ t ext e3, b.createIscsiTarget volume.name_id 1 = .ok t →
      b.createIscsiDiskExtent volume.name_id 512 pid = .ok ext →
      b.createIscsiTargetextent t.id ext.id = .error e3 →
      create_export b volume = (.error (.httpError e3),
        [RemoteCall.createIscsiTarget volume.name_id 1,
         RemoteCall.createIscsiDiskExtent volume.name_id 512 pid,
         RemoteCall.createIscsiTargetextent t.id ext.id])) := by
  refine ⟨?_, ?_, ?_, ?_⟩
  · intro t ext h1 h2 h3
    simp [create_export, hp, hm, h1, h2, h3]
  · intro e1 h1
    simp [create_export, hp, hm, h1]
  · intro t e2 h1 h2
    simp [create_export, hp, hm, h1, h2]
  · intro t ext e3 h1 h2 h3
    simp [create_export, hp, hm, h1, h2, h3]

/-- Witness for C2: on a backend where all three creates succeed (target
id 7, extent id 9), the returned update merges both ids into the
metadata. -/
theorem C2_witness :
    create_export okBackend exVolExport =
      (.ok { provider_id := none,
             admin_metadata := some [("truenas_iscsi_target_id", some "7"),
                                     ("truenas_iscsi_extent_id", some "9")] },
       [RemoteCall.createIscsiTarget "vol1" 1,
        RemoteCall.createIscsiDiskExtent "vol1" 512 "pool/ds/vol1",
        RemoteCall.createIscsiTargetextent 7 9]) :=
  (C2_amended okBackend exVolExport "pool/ds/vol1"
    [("truenas_iscsi_target_id", some "7"), ("truenas_iscsi_extent_id", some "9")]
    rfl rfl).1 { id := 7 } { id := 9 } rfl rfl rfl

/-- The busy-poll of create_volume_from_snapshot never finishes, at any
fuel, when the backend never reports the dataset as visible. -/
theorem poll_none (fuel k : Nat) :
    poll_dataset (fun _ => none) fuel k = none := by
  induction fuel generalizing k with
  | zero => rfl
  | succ n ih =>
      simp only [poll_dataset]
      exact ih (k + 1)

/-- Claim C3, code bug: the post-clone visibility loop of
create_volume_from_snapshot is an unbounded busy-poll.  Against a
backend on which the cloned dataset never becomes visible (and a
snapshot whose size differs from the requested size, so the loop runs),
the operation does not finish within any number of loop iterations: no
bound is imposed and no timeout error is ever surfaced, contradicting
the claimed bounded wait with a distinct timeout error kind. -/
theorem C3_code_bug (fuel : Nat) :
    create_volume_from_snapshot exConfig bNeverVisible exVolClone
      exSnapWithProvider fuel = none := by
  simp [create_volume_from_snapshot, exConfig, bNeverVisible, okBackend,
    exVolClone, exSnapWithProvider, poll_none]

/-- Claim C4, counterexample: delete_snapshot of a snapshot with a
provider id, failing with status 422 and the valid JSON body containing
foo: bar only.  The body parses but does not match any known pattern,
yet the original HTTP error is not re-raised: the unguarded message
lookup raises KeyError instead, substituting another exception for the
original error. -/
theorem C4_counterexample :
    (delete_snapshot bSnapDeleteNoMsg exSnapWithProvider).1 =
      .error (.keyError "message") := by
  rfl

/-- Claim C4 as amended: for every teardown operation, an error whose
body cannot be parsed as JSON is re-raised unchanged, and an error
whose parsed body has the expected structural shape for that operation
kind but does not match its known text pattern is re-raised unchanged;
however a body that parses to JSON outside the expected shape makes an
unguarded lookup raise its own exception in place of the original error
(see the counterexample). -/
theorem C4_amended (b : Backend) (volume : Volume) (snapshot : Snapshot)
    (pv ps : String) (tid eid : Option String) (e : HTTPErr)
    (hpv : volume.provider_id = some pv)
    (hps : snapshot.provider_id = some ps)
    (hdv : b.deleteDataset pv = .error e)
    (hds : b.deleteSnapshot ps = .error e)
    (hdt : b.deleteIscsiTarget tid = .error e)
    (hde : b.deleteIscsiExtent eid = .error e) :
    (e.body = none →
      (delete_volume b volume).1 = .error (.httpError e) ∧
      (delete_snapshot b snapshot).1 = .error (.httpError e) ∧
      remove_iscsi_target b tid = .error (.httpError e) ∧
      remove_iscsi_extent b eid = .error (.httpError e)) ∧
    (∀ msg, e.body = some (.obj [("message", .str msg)]) →
      strContains msg "not found" = false →
      strContains msg "snapshot has dependent clones" = false →
      (delete_snapshot b snapshot).1 = .error (.httpError e)) ∧
    (∀ msg, e.body = some (.obj [("null",
        .arr [.obj [("message", .str msg)]])]) →
      strContains msg "does not exist" = false →
      (delete_volume b volume).1 = .error (.httpError e) ∧
      remove_iscsi_target b tid = .error (.httpError e) ∧
      remove_iscsi_extent b eid = .error (.httpError e)) := by
  refine ⟨?_, ?_, ?_⟩
  · intro hb
    cases hs : (e.status == 422) <;>
      refine ⟨?_, ?_, ?_, ?_⟩ <;>
        simp [delete_volume, delete_snapshot, remove_iscsi_target,
          remove_iscsi_extent, handle_null_does_not_exist,
          handle_snapshot_delete_error, hpv, hps, hdv, hds, hdt, hde, hs, hb]
  · intro msg hb h1 h2
    cases hs : (e.status == 422) <;>
      simp [delete_snapshot, handle_snapshot_delete_error, hps, hds, hs, hb,
        pySubscript, List.lookup, pyInJson, h1, h2]
  · intro msg hb h1
    cases hs : (e.status == 422) <;>
      refine ⟨?_, ?_, ?_⟩ <;>
        simp [delete_volume, remove_iscsi_target, remove_iscsi_extent,
          handle_null_does_not_exist, hpv, hdv, hdt, hde, hs, hb,
          pySubscript, pyIndex, listIndex, List.lookup, pyInJson, h1]

/-- Witness for C4: a 422 failure with a well-shaped message matching no
pattern is re-raised unchanged by delete_snapshot. -/
theorem C4_witness :
    (delete_snapshot bShapedFail exSnapWithProvider).1 =
      .error (.httpError e422Shaped) :=
  ((C4_amended bShapedFail exVolExport exSnapWithProvider "pool/ds/vol1"
    "pool/ds/vol1@s1" (some "7") (some "9") e422Shaped
    rfl rfl rfl rfl rfl rfl).2.1 "boom" rfl rfl rfl)

/-- Claim C5, counterexample: a clone invocation whose snapshot size
equals the requested volume size completes (already at zero loop fuel)
having issued only the clone call: no get-dataset poll at all is
performed, falsifying the claim that every CreateVolumeFromSnapshot
invocation polls get-dataset until the clone is visible before
proceeding. -/
theorem C5_counterexample :
    create_volume_from_snapshot exConfig okBackend exVolCloneEq
        exSnapWithProvider 0 =
      some (.ok { provider_id := some "pool/ds/vol2",
                  admin_metadata := some
                    [("truenas_volume_id", some "pool/ds/vol2"),
                     ("truenas_volume_from_snapshot_id",
                      some "pool/ds/vol1@s1")] },
            [RemoteCall.cloneSnapshot (some "pool/ds/vol1@s1") "pool/ds/vol2"]) ∧
    RemoteCall.getDataset "pool/ds/vol2" ∉
      ((create_volume_from_snapshot exConfig okBackend exVolCloneEq
          exSnapWithProvider 0).getD
        (.ok { provider_id := none, admin_metadata := none }, [])).2 := by
  refine ⟨rfl, ?_⟩
  decide

/-- Claim C5 as amended: the get-dataset poll of
create_volume_from_snapshot happens only when the snapshot size differs
from the requested volume size.  When the sizes are equal the operation
issues the clone call alone (no poll, no extend); when they differ and
the poll first sees the dataset at attempt n, the call sequence is
exactly the clone, n+1 get-dataset polls, and then a single extend with
the requested size. -/
theorem C5_amended (cfg : Config) (b : Backend) (volume : Volume)
    (snapshot : Snapshot) (fuel : Nat)
    (hclone : b.cloneSnapshot snapshot.provider_id
      (cfg.truenas_dataset_path ++ "/" ++ volume.name_id) = .ok ()) :
    (snapshot.volume_size = volume.size →
      create_volume_from_snapshot cfg b volume snapshot fuel =
        some (.ok (cloneModelUpdate cfg volume snapshot),
              [RemoteCall.cloneSnapshot snapshot.provider_id
                (cfg.truenas_dataset_path ++ "/" ++ volume.name_id)])) ∧
    (∀ n, snapshot.volume_size ≠ volume.size →
      poll_dataset
        (b.getDataset (cfg.truenas_dataset_path ++ "/" ++ volume.name_id))
        fuel 0 = some n →
      ∃ r, create_volume_from_snapshot cfg b volume snapshot fuel =
        some (r,
          RemoteCall.cloneSnapshot snapshot.provider_id
              (cfg.truenas_dataset_path ++ "/" ++ volume.name_id) ::
            (List.replicate (n + 1)
               (RemoteCall.getDataset
                 (cfg.truenas_dataset_path ++ "/" ++ volume.name_id)) ++
             [RemoteCall.expandZvol
               (cfg.truenas_dataset_path ++ "/" ++ volume.name_id)
               (volume.size * 1024 * 1024 * 1024)]))) := by
  constructor
  · intro h
    simp [create_volume_from_snapshot, hclone, h]
  · intro n hne hpoll
    have hbne : (snapshot.volume_size != volume.size) = true :=
      bne_iff_ne.mpr hne
    cases hx : b.expandZvol (cfg.truenas_dataset_path ++ "/" ++ volume.name_id)
        (volume.size * 1024 * 1024 * 1024) with
    | ok u =>
        refine ⟨.ok (cloneModelUpdate cfg volume snapshot), ?_⟩
        simp [create_volume_from_snapshot, hclone, hbne, hpoll, extend_volume, hx]
    | error err =>
        refine ⟨.error (.httpError err), ?_⟩
        simp [create_volume_from_snapshot, hclone, hbne, hpoll, extend_volume, hx]

/-- Witness for C5: cloning a 1 GiB snapshot into a 2 GiB volume on a
backend where the clone is visible at the first poll issues the clone,
one get-dataset poll, and a single extend to 2 GiB. -/
theorem C5_witness :
    ∃ r, create_volume_from_snapshot exConfig okBackend exVolClone
        exSnapWithProvider 1 =
      some (r, RemoteCall.cloneSnapshot (some "pool/ds/vol1@s1") "pool/ds/vol2" ::
        (List.replicate 1 (RemoteCall.getDataset "pool/ds/vol2") ++
         [RemoteCall.expandZvol "pool/ds/vol2" 2147483648])) :=
  (C5_amended exConfig okBackend exVolClone exSnapWithProvider 1 rfl).2 0
    (by decide) rfl

/-- Claim C6, counterexample: a delete-snapshot failure with status 422
whose JSON message contains the dependent-clones text but also the
not-found text is absorbed as a successful no-op (the not-found branch
fires first); it is not surfaced as the resource-busy error carrying the
snapshot name.  This falsifies the claim for messages containing both
texts. -/
theorem C6_counterexample :
    (delete_snapshot bSnapDeleteBoth exSnapWithProvider).1 = .ok () ∧
    (delete_snapshot bSnapDeleteBoth exSnapWithProvider).1 ≠
      .error (.snapshotIsBusy "snap1") := by
  exact ⟨rfl, fun h => Except.noConfusion h⟩

/-- Claim C6 as amended: a delete-snapshot failure with status 422 whose
JSON message contains the dependent-clones text and does not contain
the not-found text raises the resource-busy error carrying the
snapshot's name (a message containing both texts is instead absorbed by
the earlier not-found branch, see the counterexample). -/
theorem C6_amended (b : Backend) (snapshot : Snapshot) (pid msg : String)
    (e : HTTPErr)
    (hp : snapshot.provider_id = some pid)
    (hd : b.deleteSnapshot pid = .error e)
    (hs : e.status = 422)
    (hb : e.body = some (.obj [("message", .str msg)]))
    (hclones : strContains msg "snapshot has dependent clones" = true)
    (hnf : strContains msg "not found" = false) :
    (delete_snapshot b snapshot).1 =
      .error (.snapshotIsBusy snapshot.name) := by
  simp [delete_snapshot, hp, hd, handle_snapshot_delete_error, hs, hb,
    pySubscript, List.lookup, pyInJson, hclones, hnf]

/-- Witness for C6: the exact dependent-clones message raises the busy
error with the snapshot's name. -/
theorem C6_witness :
    (delete_snapshot bSnapBusy exSnapWithProvider).1 =
      .error (.snapshotIsBusy "snap1") :=
  C6_amended bSnapBusy exSnapWithProvider "pool/ds/vol1@s1"
    "snapshot has dependent clones" e422Clones rfl rfl rfl rfl rfl rfl

/-- Claim C7, counterexample: a volume type whose provisioning:type
extra-spec is the empty string is neither thin, thick nor absent, yet
create_volume raises no validation error: the empty value is falsy, the
thick default applies, and the remote create is issued with sparse
false. -/
theorem C7_counterexample :
    create_volume cfgEmptySpec okBackend exVolTyped =
      (.ok { provider_id := some "pool/ds/vol7",
             admin_metadata := some [("truenas_volume_id", some "pool/ds/vol7")] },
       [RemoteCall.createZvol "pool/ds/vol7" 1073741824 false]) := by
  rfl

/-- Claim C7 as amended: create_volume selects the provisioning mode
from the provisioning:type extra-spec: thin issues the create with
sparse true, thick with sparse false; an absent volume type, an absent
extra-spec, or an empty-string value all fall back to the thick default
(sparse false); any other non-empty value raises the validation error
before any remote call is issued. -/
theorem C7_amended (cfg : Config) (b : Backend) (volume : Volume) :
    (∀ vt, volume.volume_type = some vt → cfg.extraSpecs vt = some "thin" →
      (create_volume cfg b volume).2 =
        [RemoteCall.createZvol
          (cfg.truenas_dataset_path ++ "/" ++ volume.name_id)
          (volume.size * 1024 * 1024 * 1024) true]) ∧
    (∀ vt, volume.volume_type = some vt → cfg.extraSpecs vt = some "thick" →
      (create_volume cfg b volume).2 =
        [RemoteCall.createZvol
          (cfg.truenas_dataset_path ++ "/" ++ volume.name_id)
          (volume.size * 1024 * 1024 * 1024) false]) ∧
    (volume.volume_type = none →
      (create_volume cfg b volume).2 =
        [RemoteCall.createZvol
          (cfg.truenas_dataset_path ++ "/" ++ volume.name_id)
          (volume.size * 1024 * 1024 * 1024) false]) ∧
    (∀ vt, volume.volume_type = some vt → cfg.extraSpecs vt = none →
      (create_volume cfg b volume).2 =
        [RemoteCall.createZvol
          (cfg.truenas_dataset_path ++ "/" ++ volume.name_id)
          (volume.size * 1024 * 1024 * 1024) false]) ∧
    (∀ vt, volume.volume_type = some vt → cfg.extraSpecs vt = some "" →
      (create_volume cfg b volume).2 =
        [RemoteCall.createZvol
          (cfg.truenas_dataset_path ++ "/" ++ volume.name_id)
          (volume.size * 1024 * 1024 * 1024) false]) ∧
    (∀ vt pt, volume.volume_type = some vt → cfg.extraSpecs vt = some pt →
      pt ≠ "" → pt ≠ "thin" → pt ≠ "thick" →
      create_volume cfg b volume =
        (.error (.volumeDriverException ("Unknown provisioning type " ++ pt
          ++ " for volume " ++ volume.id)), [])) := by
  refine ⟨?_, ?_, ?_, ?_, ?_, ?_⟩
  · intro vt hvt hspec
    cases hz : b.createZvol (cfg.truenas_dataset_path ++ "/" ++ volume.name_id)
        (volume.size * 1024 * 1024 * 1024) true <;>
      simp [create_volume, hvt, hspec, hz]
  · intro vt hvt hspec
    cases hz : b.createZvol (cfg.truenas_dataset_path ++ "/" ++ volume.name_id)
        (volume.size * 1024 * 1024 * 1024) false <;>
      simp [create_volume, hvt, hspec, hz]
  · intro hvt
    cases hz : b.createZvol (cfg.truenas_dataset_path ++ "/" ++ volume.name_id)
        (volume.size * 1024 * 1024 * 1024) false <;>
      simp [create_volume, hvt, hz]
  · intro vt hvt hspec
    cases hz : b.createZvol (cfg.truenas_dataset_path ++ "/" ++ volume.name_id)
        (volume.size * 1024 * 1024 * 1024) false <;>
      simp [create_volume, hvt, hspec, hz]
  · intro vt hvt hspec
    cases hz : b.createZvol (cfg.truenas_dataset_path ++ "/" ++ volume.name_id)
        (volume.size * 1024 * 1024 * 1024) false <;>
      simp [create_volume, hvt, hspec, hz]
  · intro vt pt hvt hspec h1 h2 h3
    simp [create_volume, hvt, hspec, beq_eq_false_iff_ne.mpr h1,
      beq_eq_false_iff_ne.mpr h2, beq_eq_false_iff_ne.mpr h3]

/-- Witness for C7: a thin extra-spec issues the remote create with
sparse true. -/
theorem C7_witness :
    (create_volume cfgThin okBackend exVolTyped).2 =
      [RemoteCall.createZvol "pool/ds/vol7" 1073741824 true] :=
  (C7_amended cfgThin okBackend exVolTyped).1 "t1" rfl rfl

/-- Claim C8: a volume or snapshot whose provider identifier is unset is
deleted as a successful no-op, with no remote call issued. -/
theorem C8_idempotent_teardown (b : Backend) (volume : Volume)
    (snapshot : Snapshot)
    (hv : volume.provider_id = none) (hs : snapshot.provider_id = none) :
    delete_volume b volume = (.ok (), []) ∧
    delete_snapshot b snapshot = (.ok (), []) := by
  constructor
  · simp [delete_volume, hv]
  · simp [delete_snapshot, hs]

/-- Witness for C8 at a concrete never-created volume and snapshot. -/
theorem C8_witness :
    delete_volume okBackend exVolNoProvider = (.ok (), []) ∧
    delete_snapshot okBackend exSnapNoProvider = (.ok (), []) :=
  C8_idempotent_teardown okBackend exVolNoProvider exSnapNoProvider rfl rfl

/-- Claim C9: for a volume with a provider identifier, when the global
and portal reads succeed and the portal has at least one listen
endpoint, initialize_connection returns a descriptor whose target IQN is
the basename joined to the volume name-id by a colon, whose target
portal is the first listen endpoint formatted ip:port, and whose
target_discovered flag is false. -/
theorem C9_connection_descriptor (b : Backend) (volume : Volume)
    (pid : String) (g : ISCSIGlobal) (portal : ISCSIPortal)
    (l0 : ISCSIPortalListen) (rest : List ISCSIPortalListen)
    (hp : volume.provider_id = some pid)
    (hg : b.getIscsiGlobal = .ok g)
    (hportal : b.getIscsiPortal "1" = .ok (some portal))
    (hlisten : portal.listen = l0 :: rest) :
    (initialize_connection b volume).1 = .ok
      { driver_volume_type := "iscsi", target_discovered := false,
        target_iqn := g.basename ++ ":" ++ volume.name_id,
        target_portal := l0.ip ++ ":" ++ toString l0.port,
        volume_id := volume.id, discard := false } := by
  simp [initialize_connection, hp, hg, hportal, hlisten]

/-- Witness for C9 on the connection-descriptor example of the spec:
basename iqn.2005-10.org.example.ctl, listen endpoint 10.0.0.5 port
3260, volume identity abc. -/
theorem C9_witness :
    (initialize_connection okBackend exVolAbc).1 = .ok
      { driver_volume_type := "iscsi", target_discovered := false,
        target_iqn := "iqn.2005-10.org.example.ctl:abc",
        target_portal := "10.0.0.5:3260",
        volume_id := "vid-abc", discard := false } :=
  C9_connection_descriptor okBackend exVolAbc "pool/ds/abc"
    { id := 1, basename := "iqn.2005-10.org.example.ctl" }
    { id := 1, listen := [{ ip := "10.0.0.5", port := 3260 }] }
    { ip := "10.0.0.5", port := 3260 } [] rfl rfl rfl rfl

/-- Claim C10: on a volume whose provider identifier is set but whose
admin metadata is None, create_export raises TypeError from the
unguarded dict-unpack, and only after all three remote creates were
issued; whereas create_volume, create_snapshot and
create_volume_from_snapshot guard the absent-metadata case and
succeed. -/
theorem C10_metadata_guard (cfg : Config) (b : Backend)
    (v1 v2 v4 : Volume) (s3 s4 : Snapshot) (p1 p3 : String)
    (t : ISCSITarget) (ext : ISCSIExtent)
    (h1p : v1.provider_id = some p1) (h1m : v1.admin_metadata = none)
    (ht : b.createIscsiTarget v1.name_id 1 = .ok t)
    (he : b.createIscsiDiskExtent v1.name_id 512 p1 = .ok ext)
    (hte : b.createIscsiTargetextent t.id ext.id = .ok ())
    (h2m : v2.admin_metadata = none) (h2t : v2.volume_type = none)
    (hz : b.createZvol (cfg.truenas_dataset_path ++ "/" ++ v2.name_id)
      (v2.size * 1024 * 1024 * 1024) false = .ok ())
    (h3p : s3.volume.provider_id = some p3) (h3m : s3.admin_metadata = none)
    (hcs : b.createSnapshot s3.id p3 = .ok ())
    (_h4m : v4.admin_metadata = none) (h4s : s4.volume_size = v4.size)
    (hclone : b.cloneSnapshot s4.provider_id
      (cfg.truenas_dataset_path ++ "/" ++ v4.name_id) = .ok ()) :
    create_export b v1 = (.error .typeError,
      [RemoteCall.createIscsiTarget v1.name_id 1,
       RemoteCall.createIscsiDiskExtent v1.name_id 512 p1,
       RemoteCall.createIscsiTargetextent t.id ext.id]) ∧
    isOk (create_volume cfg b v2).1 = true ∧
    isOk (create_snapshot b s3).1 = true ∧
    create_volume_from_snapshot cfg b v4 s4 1 =
      some (.ok (cloneModelUpdate cfg v4 s4),
        [RemoteCall.cloneSnapshot s4.provider_id
          (cfg.truenas_dataset_path ++ "/" ++ v4.name_id)]) := by
  refine ⟨?_, ?_, ?_, ?_⟩
  · simp [create_export, h1p, h1m, ht, he, hte]
  · simp [create_volume, h2t, h2m, hz, isOk]
  · simp [create_snapshot, h3p, h3m, hcs, isOk]
  · simp [create_volume_from_snapshot, hclone, h4s]

/-- Witness for C10 on a concrete metadata-less volume and snapshot
against the all-succeeding backend. -/
theorem C10_witness :
    create_export okBackend exVolNoMeta = (.error .typeError,
      [RemoteCall.createIscsiTarget "vol1" 1,
       RemoteCall.createIscsiDiskExtent "vol1" 512 "pool/ds/vol1",
       RemoteCall.createIscsiTargetextent 7 9]) ∧
    isOk (create_volume exConfig okBackend exVolNoMeta).1 = true ∧
    isOk (create_snapshot okBackend exSnapNoMeta).1 = true ∧
    create_volume_from_snapshot exConfig okBackend exVolNoMeta exSnapNoMeta 1 =
      some (.ok (cloneModelUpdate exConfig exVolNoMeta exSnapNoMeta),
        [RemoteCall.cloneSnapshot (some "pool/ds/vol1@s3") "pool/ds/vol1"]) :=
  C10_metadata_guard exConfig okBackend exVolNoMeta exVolNoMeta exVolNoMeta
    exSnapNoMeta exSnapNoMeta "pool/ds/vol1" "pool/ds/vol1"
    { id := 7 } { id := 9 }
    rfl rfl rfl rfl rfl rfl rfl rfl rfl rfl rfl rfl rfl rfl

end TrueNAS
